import Mathlib

/-! Verification of the `astro-microservice` request/response glue layer
(`src/app.py`) against its natural-language specification.

Modelling conventions:
* Python floats are modelled by the domain `PyFloat`: either a finite value,
  represented exactly by a rational number, or one of the non-finite values
  `nan`, `inf`, `ninf`.  Rounding of float arithmetic is outside the model;
  the individual operations used by the code (`%`, `//`, `int()`, `-`,
  `round(_, 4)`) are given their exact Python semantics on this domain.
* JSON payload values are modelled by `JVal`, payloads by association lists.
* Python exceptions are modelled by `Except PyErr`; an uncaught exception is
  an `Except.error` value that propagates.
* The Swiss Ephemeris library (`swisseph`) is an external collaborator; it is
  modelled as an abstract `Provider` record of (possibly failing) functions,
  over which the theorems quantify.
-/

set_option autoImplicit false

/-- Python float domain: exact finite values plus the non-finite floats. -/
inductive PyFloat where
  | fin (q : ℚ)
  | nan
  | inf
  | ninf
deriving DecidableEq

/-- Whether a Python float is finite (not NaN and not an infinity). -/
def PyFloat.isFinite : PyFloat → Bool
  | PyFloat.fin _ => true
  | _ => false

/-- Python exceptions raised by the code paths under consideration. -/
inductive PyErr where
  | valueError (msg : String)
  | typeError (msg : String)
  | overflowError (msg : String)
  | indexError (msg : String)
deriving DecidableEq

/-- Python `str(e)` of an exception: its message. -/
def pyErrStr : PyErr → String
  | PyErr.valueError m => m
  | PyErr.typeError m => m
  | PyErr.overflowError m => m
  | PyErr.indexError m => m

/-- Python float subtraction `a - b` on the `PyFloat` domain. -/
def pySub : PyFloat → PyFloat → PyFloat
  | PyFloat.fin a, PyFloat.fin b => PyFloat.fin (a - b)
  | PyFloat.nan, _ => PyFloat.nan
  | _, PyFloat.nan => PyFloat.nan
  | PyFloat.inf, PyFloat.inf => PyFloat.nan
  | PyFloat.inf, _ => PyFloat.inf
  | PyFloat.ninf, PyFloat.ninf => PyFloat.nan
  | PyFloat.ninf, _ => PyFloat.ninf
  | PyFloat.fin _, PyFloat.inf => PyFloat.ninf
  | PyFloat.fin _, PyFloat.ninf => PyFloat.inf

/-- Python truncation toward zero, as performed by `int()` on a finite float. -/
def pyTrunc (q : ℚ) : ℤ :=
  if 0 ≤ q then ⌊q⌋ else -⌊-q⌋

/-- Python `int(x)` on a float: truncates finite values, raises `ValueError`
on NaN and `OverflowError` on the infinities. -/
def pyInt : PyFloat → Except PyErr ℤ
  | PyFloat.fin q => Except.ok (pyTrunc q)
  | PyFloat.nan => Except.error (PyErr.valueError "cannot convert float NaN to integer")
  | PyFloat.inf => Except.error (PyErr.overflowError "cannot convert float infinity to integer")
  | PyFloat.ninf => Except.error (PyErr.overflowError "cannot convert float infinity to integer")

/-- Python float floor division `x // d` by a non-zero finite literal `d`:
finite values floor, non-finite values give NaN. -/
def pyFloorDivF : PyFloat → ℚ → PyFloat
  | PyFloat.fin q, d => PyFloat.fin ((⌊q / d⌋ : ℤ) : ℚ)
  | _, _ => PyFloat.nan

/-- Python list indexing `xs[i]` (negative indices count from the end;
out-of-range indices raise `IndexError`). -/
def pyListGet (xs : List String) (i : ℤ) : Except PyErr String :=
  let j : ℤ := if i < 0 then i + xs.length else i
  if 0 ≤ j ∧ j < (xs.length : ℤ) then
    match xs.get? j.toNat with
    | some v => Except.ok v
    | none => Except.error (PyErr.indexError "list index out of range")
  else Except.error (PyErr.indexError "list index out of range")

/-- Source `app.py` line 27: `norm360(x) = x % 360.0` on a finite float.  Python `%`
is the true mathematical modulo `x - 360 * floor(x / 360)`. -/
def norm360 (x : ℚ) : ℚ := x - 360 * ⌊x / 360⌋

/-- The function `norm360` lifted to the full float domain: `x % 360.0` of a non-finite
float is NaN. -/
def norm360F : PyFloat → PyFloat
  | PyFloat.fin q => PyFloat.fin (norm360 q)
  | _ => PyFloat.nan

/-- Source `app.py` lines 22-25: the fixed zodiac-name table. -/
def SIGNS : List String :=
  ["Aries", "Taurus", "Gemini", "Cancer", "Leo", "Virgo",
   "Libra", "Scorpio", "Sagittarius", "Capricorn", "Aquarius", "Pisces"]

/-- Source `app.py` lines 31-36:
`lon = norm360(lon); idx = int(lon // 30); deg = lon - idx * 30;
return SIGNS[idx], deg`.  Exceptions raised by `int()` or the list access
propagate to the caller. -/
def to_sign (lon0 : PyFloat) : Except PyErr (String × PyFloat) :=
  let lon := norm360F lon0
  match pyInt (pyFloorDivF lon 30) with
  | Except.error e => Except.error e
  | Except.ok idx =>
    match pyListGet SIGNS idx with
    | Except.error e => Except.error e
    | Except.ok s => Except.ok (s, pySub lon (PyFloat.fin ((idx : ℚ) * 30)))

/-- The integer nearest `s` (ties to the even integer), as used by Python
`round`. -/
def roundHalfEven (s : ℚ) : ℤ :=
  if s - (⌊s⌋ : ℚ) < 1/2 then ⌊s⌋
  else if 1/2 < s - (⌊s⌋ : ℚ) then ⌊s⌋ + 1
  else if ⌊s⌋ % 2 = 0 then ⌊s⌋ else ⌊s⌋ + 1

/-- Python `round(q, 4)`: round half to even at four decimal places. -/
def pyRound4 (q : ℚ) : ℚ :=
  ((roundHalfEven (q * 10000) : ℤ) : ℚ) / 10000

/-- Python `round(x, 4)` on the float domain: non-finite values pass through. -/
def pyRound4F : PyFloat → PyFloat
  | PyFloat.fin q => PyFloat.fin (pyRound4 q)
  | x => x

/-- JSON payload values (the shapes exercised by the service). -/
inductive JVal where
  | jstr (s : String)
  | jnum (q : ℚ)
  | jbool (b : Bool)
  | jnull
deriving DecidableEq

/-- Python `s.split(sep)` for a one-character separator, on char lists. -/
def splitOnChar : List Char → Char → List (List Char)
  | [], _ => [[]]
  | c :: cs, sep =>
    match splitOnChar cs sep with
    | [] => if c = sep then [[], [c]] else [[c]]
    | h :: t => if c = sep then [] :: h :: t else (c :: h) :: t

/-- Python `s.split(sep)` on strings. -/
def pySplit (s : String) (sep : Char) : List String :=
  (splitOnChar s.toList sep).map String.mk

/-- Python `s.strip()`: drop leading and trailing whitespace. -/
def trimChars (cs : List Char) : List Char :=
  ((cs.dropWhile Char.isWhitespace).reverse.dropWhile Char.isWhitespace).reverse

/-- Accumulate a decimal digit string into a natural number; `none` on any
non-digit character. -/
def readDigits : List Char → ℕ → Option ℕ
  | [], acc => some acc
  | c :: cs, acc =>
    if c.isDigit then readDigits cs (10 * acc + (c.toNat - 48)) else none

/-- An optional sign followed by a non-empty digit string. -/
def signedDigits : List Char → Option ℤ
  | [] => none
  | '+' :: rest =>
    if rest = [] then none else (readDigits rest 0).map Int.ofNat
  | '-' :: rest =>
    if rest = [] then none else (readDigits rest 0).map (fun n => -(n : ℤ))
  | cs => (readDigits cs 0).map Int.ofNat

/-- Python `int(s)` on a string: strip whitespace, then an optional sign and
digits.  (Underscore digit separators and non-ASCII digits are not modelled.) -/
def pyIntOfString (s : String) : Option ℤ :=
  signedDigits (trimChars s.toList)

/-- Parse the digits-and-dot part of a float literal: `dd`, `dd.dd`, `.dd`,
`dd.` (at least one digit overall). -/
def parseMantissa (cs : List Char) : Option ℚ :=
  match splitOnChar cs '.' with
  | [ip] =>
    if ip = [] then none else (readDigits ip 0).map (fun n => (n : ℚ))
  | [ip, fp] =>
    if ip = [] ∧ fp = [] then none
    else
      match readDigits ip 0, readDigits fp 0 with
      | some i, some f => some ((i : ℚ) + (f : ℚ) / (10 : ℚ) ^ fp.length)
      | _, _ => none
  | _ => none

/-- Ten to a signed integer exponent, `10 ^ e`. -/
def pow10 (e : ℤ) : ℚ :=
  if 0 ≤ e then (10 : ℚ) ^ e.toNat else 1 / (10 : ℚ) ^ (-e).toNat

/-- Parse an unsigned float literal body `mantissa[(e|E)exponent]`. -/
def parseFloatBody (cs : List Char) : Option ℚ :=
  match splitOnChar (cs.map Char.toLower) 'e' with
  | [m] => parseMantissa m
  | [m, ex] =>
    match parseMantissa m, signedDigits ex with
    | some mv, some ev => some (mv * pow10 ev)
    | _, _ => none
  | _ => none

/-- Python `float(s)` on a string: strip whitespace, optional sign, then
`nan`, `inf`, `infinity` (case-insensitive) or a decimal literal; raises
`ValueError` otherwise. -/
def pyFloatOfString (s : String) : Except PyErr PyFloat :=
  let t := trimChars s.toList
  let body := match t with
    | '+' :: rest => rest
    | '-' :: rest => rest
    | cs => cs
  let neg : Bool := match t with
    | '-' :: _ => true
    | _ => false
  let lb := body.map Char.toLower
  if lb = "nan".toList then Except.ok PyFloat.nan
  else if lb = "inf".toList ∨ lb = "infinity".toList then
    Except.ok (if neg then PyFloat.ninf else PyFloat.inf)
  else
    match parseFloatBody body with
    | some q => Except.ok (PyFloat.fin (if neg then -q else q))
    | none =>
      Except.error (PyErr.valueError
        ("could not convert string to float: \x27" ++ s ++ "\x27"))

/-- Python `float(v)` on a JSON value. -/
def pyFloatJ : JVal → Except PyErr PyFloat
  | JVal.jnum q => Except.ok (PyFloat.fin q)
  | JVal.jbool b => Except.ok (PyFloat.fin (if b then 1 else 0))
  | JVal.jstr s => pyFloatOfString s
  | JVal.jnull =>
    Except.error (PyErr.typeError
      "float() argument must be a string or a real number, not \x27NoneType\x27")

/-- Python `str(v)` on a JSON value.  (The string rendering of numbers is a
modelling artifact; the service only ever applies `str` to string fields in
the claims under study.) -/
def pyStr : JVal → String
  | JVal.jstr s => s
  | JVal.jnum q => toString q
  | JVal.jbool b => if b then "True" else "False"
  | JVal.jnull => "None"

/-- Python `", ".join(l)`. -/
def joinComma : List String → String
  | [] => ""
  | [s] => s
  | s :: rest => s ++ ", " ++ joinComma rest

/-- The required POST body fields, `app.py` line 43. -/
def requiredKeys : List String := ["date", "time", "lat", "lon"]

/-- Python `payload[k]`, defaulting to JSON null (only used where presence has
already been checked). -/
def getField (payload : List (String × JVal)) (k : String) : JVal :=
  ((payload.lookup k).getD JVal.jnull)

/-- Source `app.py` lines 38-73, `parse_inputs(payload)`:
returns `(y, m, d, hour_utc, lat, lon, tz)` or raises.
* missing required fields raise a `ValueError` listing all of them;
* the date must split on `-` into exactly three `int()`-parseable parts;
* the time must split on `:` into exactly two `int()`-parseable parts;
* `lat`/`lon` must convert with `float()`;
* `tz_offset` defaults to `0.0`; a failing `float(tz_offset)` conversion
  raises its own (uncaught) exception;
* `hour_utc = (hh + mm/60) - tz`. -/
def parse_inputs (payload : List (String × JVal)) :
    Except PyErr (ℤ × ℤ × ℤ × PyFloat × PyFloat × PyFloat × PyFloat) :=
  let missing := requiredKeys.filter (fun k => (payload.lookup k).isNone)
  if missing = [] then
    match (pySplit (pyStr (getField payload "date")) '-').mapM pyIntOfString,
          (pySplit (pyStr (getField payload "time")) ':').mapM pyIntOfString with
    | some [y, m, d], some [hh, mm] =>
      (match pyFloatJ (getField payload "lat"), pyFloatJ (getField payload "lon") with
       | Except.ok lat, Except.ok lon =>
         (match (match payload.lookup "tz_offset" with
                 | none => Except.ok (PyFloat.fin 0)
                 | some v => pyFloatJ v) with
          | Except.error e => Except.error e
          | Except.ok tz =>
            Except.ok (y, m, d,
              pySub (PyFloat.fin ((hh : ℚ) + (mm : ℚ) / 60)) tz, lat, lon, tz))
       | _, _ =>
         Except.error (PyErr.valueError "\x27lat\x27 and \x27lon\x27 must be numbers."))
    | some [_, _, _], _ =>
      Except.error (PyErr.valueError "Invalid \x27time\x27 format. Use HH:MM (24h).")
    | _, _ =>
      Except.error (PyErr.valueError "Invalid \x27date\x27 format. Use YYYY-MM-DD.")
  else
    Except.error (PyErr.valueError ("Missing required field(s): " ++ joinComma missing))

namespace swe

/-- Swiss Ephemeris planet and flag constants used in `app.py`. -/
def SUN : ℕ := 0

def MOON : ℕ := 1

def MERCURY : ℕ := 2

def VENUS : ℕ := 3

def MARS : ℕ := 4

def JUPITER : ℕ := 5

def SATURN : ℕ := 6

def URANUS : ℕ := 7

def NEPTUNE : ℕ := 8

def PLUTO : ℕ := 9

def FLG_SWIEPH : ℕ := 2

end swe

/-- Source `app.py` lines 112-115: the ten classical bodies queried. -/
def planet_ids : List ℕ :=
  [swe.SUN, swe.MOON, swe.MERCURY, swe.VENUS, swe.MARS,
   swe.JUPITER, swe.SATURN, swe.URANUS, swe.NEPTUNE, swe.PLUTO]

/-- The external ephemeris provider (the `swisseph` library), as the abstract
interface the handler consumes.  `calc_ut` is modelled by the only component
the handler reads, `res[0]` (the ecliptic longitude); `houses_ex`/`houses`
return the `(cusps, ascmc)` pair of sequences.  Any call may fail with a
provider-specific error string. -/
structure Provider where
  julday : ℤ → ℤ → ℤ → PyFloat → Except String PyFloat
  calc_ut : PyFloat → ℕ → Except String PyFloat
  get_planet_name : ℕ → String
  houses_ex : PyFloat → ℕ → PyFloat → PyFloat → String →
    Except String (List PyFloat × List PyFloat)
  houses : PyFloat → PyFloat → PyFloat → String →
    Except String (List PyFloat × List PyFloat)

/-- One entry of the `planets` response dictionary: either a computed
position or an inline error marker `{"error": str(e)}`. -/
inductive PlanetEntry where
  | pos (lon : PyFloat) (sign : String) (degInSign : PyFloat)
  | perr (msg : String)
deriving DecidableEq

/-- Source `app.py` lines 117-131, the body of the per-planet loop: any exception
from `calc_ut`/`norm360`/`to_sign` is caught and recorded inline. -/
def computeBody (p : Provider) (jd : PyFloat) (pid : ℕ) : PlanetEntry :=
  match p.calc_ut jd pid with
  | Except.error e => PlanetEntry.perr e
  | Except.ok res =>
    let lon_ecl := norm360F res
    match to_sign lon_ecl with
    | Except.error e => PlanetEntry.perr (pyErrStr e)
    | Except.ok (sign, deg) =>
      PlanetEntry.pos (pyRound4F lon_ecl) sign (pyRound4F deg)

/-- The full `planets` dictionary, in insertion order. -/
def computePlanets (p : Provider) (jd : PyFloat) : List (String × PlanetEntry) :=
  planet_ids.map (fun pid => (p.get_planet_name pid, computeBody p jd pid))

/-- One `ASC`/`MC` entry: the (already normalized, unrounded) longitude with
its sign and rounded degrees-within-sign. -/
structure AngleEntry where
  lon : PyFloat
  sign : String
  degInSign : PyFloat
deriving DecidableEq

/-- The `angles` section of the response: either the `ASC`/`MC` entries or an
`{"error": msg}` dictionary. -/
inductive AnglesOut where
  | entries (asc mc : Option AngleEntry)
  | err (msg : String)
deriving DecidableEq

/-- Source `app.py` lines 137-152, `_normalize_cusps(raw)`: `None` (or empty) input
gives `None`; 13-or-longer input keeps elements 1..12; exactly-12 input is
kept whole; any other length gives `None`; surviving values are
`round(norm360(v), 4)`. -/
def _normalize_cusps (raw : Option (List PyFloat)) : Option (List PyFloat) :=
  match raw with
  | none => none
  | some cs =>
    if cs = [] then none
    else if 13 ≤ cs.length then
      some (((cs.drop 1).take 12).map (fun v => pyRound4F (norm360F v)))
    else if cs.length = 12 then
      some (cs.map (fun v => pyRound4F (norm360F v)))
    else none

/-- Build one angle entry from an optional extracted longitude (already
normalized); exceptions from `to_sign` propagate. -/
def angleEntry (lonq : Option PyFloat) : Except PyErr (Option AngleEntry) :=
  match lonq with
  | none => Except.ok none
  | some a =>
    match to_sign a with
    | Except.error e => Except.error e
    | Except.ok (s, d) =>
      Except.ok (some { lon := a, sign := s, degInSign := pyRound4F d })

/-- Source `app.py` lines 154-171, `_angles_from_ascmc(raw)`: falsy input gives an
error dictionary; otherwise `ASC` is taken from index 0 and `MC` from index 1
when present (lengths permitting). -/
def _angles_from_ascmc (raw : Option (List PyFloat)) : Except PyErr AnglesOut :=
  match raw with
  | none => Except.ok (AnglesOut.err "ascmc unavailable")
  | some arr =>
    if arr = [] then Except.ok (AnglesOut.err "ascmc unavailable")
    else
      match angleEntry (if 0 < arr.length then (arr.get? 0).map norm360F else none) with
      | Except.error e => Except.error e
      | Except.ok asc =>
        match angleEntry (if 1 < arr.length then (arr.get? 1).map norm360F else none) with
        | Except.error e => Except.error e
        | Except.ok mc =>
          if asc.isNone && mc.isNone then
            Except.ok (AnglesOut.err "ASC/MC not present in ascmc")
          else Except.ok (AnglesOut.entries asc mc)

/-- Source `app.py` lines 173-186, the body of the houses/angles `try` block:
`houses_ex` with a fallback to `houses`; a `None` result of
`_normalize_cusps` raises `RuntimeError`. -/
def computeHousesAux (p : Provider) (jd lat lon : PyFloat) :
    Except String (Option (List PyFloat) × AnglesOut) :=
  match (match p.houses_ex jd swe.FLG_SWIEPH lat lon "P" with
         | Except.ok r => Except.ok r
         | Except.error _ => p.houses jd lat lon "P") with
  | Except.error e => Except.error e
  | Except.ok (cusps, ascmc) =>
    let houses := _normalize_cusps (some cusps)
    match _angles_from_ascmc (some ascmc) with
    | Except.error e => Except.error (pyErrStr e)
    | Except.ok angles =>
      if houses.isNone then
        Except.error "House cusps array had unexpected length/shape."
      else Except.ok (houses, angles)

/-- Source `app.py` lines 188-190, the `except` clause of the houses/angles block:
on any failure `houses = None` and `angles = {"error": str(e)}`. -/
def computeHouses (p : Provider) (jd lat lon : PyFloat) :
    Option (List PyFloat) × AnglesOut :=
  match computeHousesAux p jd lat lon with
  | Except.ok ha => ha
  | Except.error e => (none, AnglesOut.err e)

/-- The HTTP response of the `/natal` route: 400, 500, or the 200 JSON body. -/
inductive HttpResp where
  | badRequest (err : String)
  | serverError (err : String)
  | okResp (jd_ut : PyFloat) (tz_offset_hours : PyFloat)
      (planets : List (String × PlanetEntry))
      (houses : Option (List PyFloat)) (angles : AnglesOut)
      (sun_sign moon_sign asc_sign : Option String)
deriving DecidableEq

/-- Source `app.py` lines 193-194: `planets.get(name, {}).get("sign")`. -/
def lookupSign (planets : List (String × PlanetEntry)) (name : String) : Option String :=
  match planets.lookup name with
  | some (PlanetEntry.pos _ s _) => some s
  | _ => none

/-- Source `app.py` lines 195-200: the ascendant sign of the summary. -/
def ascSignOf : AnglesOut → Option String
  | AnglesOut.entries (some a) _ => some a.sign
  | _ => none

/-- Source `app.py` lines 92-216, the `/natal` handler on an already-parsed JSON
payload: a `ValueError` from `parse_inputs` gives HTTP 400, any other
uncaught exception an HTTP 500, a `julday` failure an HTTP 500, and
otherwise the assembled HTTP 200 response. -/
def natal (p : Provider) (data : List (String × JVal)) : HttpResp :=
  match parse_inputs data with
  | Except.error (PyErr.valueError msg) => HttpResp.badRequest msg
  | Except.error e => HttpResp.serverError (pyErrStr e)
  | Except.ok (y, m, d, hour_utc, lat, lon, tz) =>
    match p.julday y m d hour_utc with
    | Except.error e => HttpResp.serverError ("julday failed: " ++ e)
    | Except.ok jd_ut =>
      let planets := computePlanets p jd_ut
      let ha := computeHouses p jd_ut lat lon
      HttpResp.okResp jd_ut tz planets ha.1 ha.2
        (lookupSign planets "Sun") (lookupSign planets "Moon") (ascSignOf ha.2)

/-! Helper lemmas -/

theorem norm360_nonneg (x : ℚ) : 0 ≤ norm360 x := by
  have h : ((⌊x / 360⌋ : ℚ)) ≤ x / 360 := Int.floor_le (x / 360)
  have h2 : (360 : ℚ) * (⌊x / 360⌋ : ℚ) ≤ 360 * (x / 360) :=
    mul_le_mul_of_nonneg_left h (by norm_num)
  have h3 : (360 : ℚ) * (x / 360) = x := by field_simp
  unfold norm360
  linarith

theorem norm360_lt_360 (x : ℚ) : norm360 x < 360 := by
  have h : x / 360 < (⌊x / 360⌋ : ℚ) + 1 := Int.lt_floor_add_one (x / 360)
  have h2 : (360 : ℚ) * (x / 360) < 360 * ((⌊x / 360⌋ : ℚ) + 1) :=
    mul_lt_mul_of_pos_left h (by norm_num)
  have h3 : (360 : ℚ) * (x / 360) = x := by field_simp
  unfold norm360
  linarith

theorem norm360_period (x : ℚ) (k : ℤ) : norm360 (x + 360 * k) = norm360 x := by
  have hdiv : (x + 360 * (k : ℚ)) / 360 = x / 360 + (k : ℚ) := by
    field_simp
    ring
  unfold norm360
  rw [hdiv, Int.floor_add_int]
  push_cast
  ring

theorem floor30_nonneg (q : ℚ) : 0 ≤ ⌊norm360 q / 30⌋ :=
  Int.floor_nonneg.mpr (div_nonneg (norm360_nonneg q) (by norm_num))

theorem floor30_lt (q : ℚ) : ⌊norm360 q / 30⌋ < 12 := by
  rw [Int.floor_lt]
  rw [div_lt_iff₀ (by norm_num : (0:ℚ) < 30)]
  push_cast
  linarith [norm360_lt_360 q]

theorem deg_in_sign_bounds (q : ℚ) :
    0 ≤ norm360 q - (⌊norm360 q / 30⌋ : ℚ) * 30 ∧
    norm360 q - (⌊norm360 q / 30⌋ : ℚ) * 30 < 30 := by
  have h := Int.floor_le (norm360 q / 30)
  have h2 := Int.lt_floor_add_one (norm360 q / 30)
  have a : (⌊norm360 q / 30⌋ : ℚ) * 30 ≤ (norm360 q / 30) * 30 :=
    mul_le_mul_of_nonneg_right h (by norm_num)
  have b : (norm360 q / 30) * 30 = norm360 q := by field_simp
  have c : (norm360 q / 30) * 30 < ((⌊norm360 q / 30⌋ : ℚ) + 1) * 30 :=
    mul_lt_mul_of_pos_right h2 (by norm_num)
  constructor <;> linarith

theorem pyTrunc_intCast (k : ℤ) (h : 0 ≤ k) : pyTrunc (k : ℚ) = k := by
  unfold pyTrunc
  rw [if_pos (by exact_mod_cast h)]
  exact Int.floor_intCast k

theorem pyListGet_SIGNS (i : ℤ) (h0 : 0 ≤ i) (h1 : i < 12) :
    ∃ s : String, SIGNS.get? i.toNat = some s ∧ pyListGet SIGNS i = Except.ok s := by
  interval_cases i <;> exact ⟨_, rfl, rfl⟩

theorem to_sign_fin (q : ℚ) :
    ∃ s : String, SIGNS.get? (⌊norm360 q / 30⌋).toNat = some s ∧
      to_sign (PyFloat.fin q) =
        Except.ok (s, PyFloat.fin (norm360 q - (⌊norm360 q / 30⌋ : ℚ) * 30)) := by
  have h0 : 0 ≤ ⌊norm360 q / 30⌋ := floor30_nonneg q
  have h1 : ⌊norm360 q / 30⌋ < 12 := floor30_lt q
  obtain ⟨s, hget, hlist⟩ := pyListGet_SIGNS _ h0 h1
  refine ⟨s, hget, ?_⟩
  simp only [to_sign, norm360F, pyFloorDivF, pyInt, pyTrunc_intCast _ h0, hlist, pySub]

/-! Claims -/

/-- Claim C1: for every (real-valued) longitude `x`, `norm360 x ∈ [0, 360)`,
and `norm360` is invariant under adding integer multiples of 360, so it is
the true mathematical modulo also for negative inputs. -/
theorem norm360_range_and_periodic (x : ℚ) :
    (0 ≤ norm360 x ∧ norm360 x < 360) ∧
    ∀ k : ℤ, norm360 (x + 360 * k) = norm360 x :=
  ⟨⟨norm360_nonneg x, norm360_lt_360 x⟩, fun k => norm360_period x k⟩

/-- Claim C2: for every finite longitude `x`, `to_sign` computes the segment
index `⌊norm360 x / 30⌋`, which lies in `[0, 12)`, returns the zodiac name at
that index of the fixed twelve-name table whose index 0 is `"Aries"`, returns
degrees-within-sign `norm360 x - idx * 30` lying in `[0, 30)`, and
`idx * 30 + degrees_within` reconstructs the normalized longitude. -/
theorem to_sign_segment_correct (x : ℚ) :
    ∃ s : String,
      to_sign (PyFloat.fin x) =
        Except.ok (s, PyFloat.fin (norm360 x - (⌊norm360 x / 30⌋ : ℚ) * 30)) ∧
      SIGNS.get? (⌊norm360 x / 30⌋).toNat = some s ∧
      SIGNS.length = 12 ∧ SIGNS.get? 0 = some "Aries" ∧
      0 ≤ ⌊norm360 x / 30⌋ ∧ ⌊norm360 x / 30⌋ < 12 ∧
      0 ≤ norm360 x - (⌊norm360 x / 30⌋ : ℚ) * 30 ∧
      norm360 x - (⌊norm360 x / 30⌋ : ℚ) * 30 < 30 ∧
      (⌊norm360 x / 30⌋ : ℚ) * 30 + (norm360 x - (⌊norm360 x / 30⌋ : ℚ) * 30) = norm360 x := by
  obtain ⟨s, hget, hts⟩ := to_sign_fin x
  obtain ⟨hd0, hd1⟩ := deg_in_sign_bounds x
  exact ⟨s, hts, hget, rfl, rfl, floor30_nonneg x, floor30_lt x, hd0, hd1, by ring⟩

/-- Claim C8: `to_sign` is total on finite inputs — it returns a sign name
and a finite degrees value for every finite longitude — and it fails exactly
on non-finite inputs (NaN or an infinity), where the `int()` conversion of
the NaN produced by `%` signals the error (the spec's `InvalidComputation`). -/
theorem to_sign_totality (x : PyFloat) :
    (x.isFinite = true → ∃ s d, to_sign x = Except.ok (s, PyFloat.fin d)) ∧
    (x.isFinite = false →
      to_sign x = Except.error (PyErr.valueError "cannot convert float NaN to integer")) := by
  cases x with
  | fin q =>
    refine ⟨fun _ => ?_, fun h => by simp [PyFloat.isFinite] at h⟩
    obtain ⟨s, _, hts⟩ := to_sign_fin q
    exact ⟨s, _, hts⟩
  | nan => exact ⟨fun h => by simp [PyFloat.isFinite] at h, fun _ => rfl⟩
  | inf => exact ⟨fun h => by simp [PyFloat.isFinite] at h, fun _ => rfl⟩
  | ninf => exact ⟨fun h => by simp [PyFloat.isFinite] at h, fun _ => rfl⟩

/-- Witness for C8 at concrete inputs 45.0 and NaN. -/
theorem to_sign_totality_witness :
    (∃ s d, to_sign (PyFloat.fin 45) = Except.ok (s, PyFloat.fin d)) ∧
    to_sign PyFloat.nan =
      Except.error (PyErr.valueError "cannot convert float NaN to integer") :=
  ⟨(to_sign_totality (PyFloat.fin 45)).1 rfl, (to_sign_totality PyFloat.nan).2 rfl⟩

theorem pyRound4_nonneg (q : ℚ) (h : 0 ≤ q) : 0 ≤ pyRound4 q := by
  have h1 : (0:ℤ) ≤ ⌊q * (10000:ℚ)⌋ := Int.floor_nonneg.mpr (by positivity)
  have h2 : (0:ℚ) ≤ ((⌊q * (10000:ℚ)⌋ : ℤ) : ℚ) := by exact_mod_cast h1
  unfold pyRound4 roundHalfEven
  split_ifs <;> (refine div_nonneg ?_ (by norm_num) ; push_cast ; linarith)

theorem pyRound4_le (q : ℚ) (h : q < 360) : pyRound4 q ≤ 360 := by
  have h1 : ⌊q * (10000:ℚ)⌋ < 3600000 := by
    rw [Int.floor_lt]
    push_cast
    linarith
  have h1b : ⌊q * (10000:ℚ)⌋ + 1 ≤ 3600000 := by omega
  have h2 : ((⌊q * (10000:ℚ)⌋ : ℤ) : ℚ) + 1 ≤ 3600000 := by exact_mod_cast h1b
  unfold pyRound4 roundHalfEven
  split_ifs <;>
    (rw [div_le_iff₀ (by norm_num : (0:ℚ) < 10000)] ; push_cast ; linarith)

/-! Concrete fixtures used by witnesses and counterexamples -/

/-- A valid POST body with a parametric time string. -/
def timePayload (t : String) : List (String × JVal) :=
  [("date", JVal.jstr "1995-06-15"), ("time", JVal.jstr t),
   ("lat", JVal.jnum 19), ("lon", JVal.jnum 72)]

/-- A valid POST body without `tz_offset`. -/
def C3base : List (String × JVal) := timePayload "03:15"

/-- A valid POST body with parametric `lat`/`lon` values. -/
def C9base (v w : JVal) : List (String × JVal) :=
  [("date", JVal.jstr "2000-01-01"), ("time", JVal.jstr "12:30"),
   ("lat", v), ("lon", w)]

/-- The real planet names, indexed by planet id. -/
def planetNames : List String :=
  ["Sun", "Moon", "Mercury", "Venus", "Mars", "Jupiter",
   "Saturn", "Uranus", "Neptune", "Pluto"]

/-- A concrete provider on which every call succeeds. -/
def P0 : Provider where
  julday := fun _ _ _ _ => Except.ok (PyFloat.fin 2449883)
  calc_ut := fun _ pid => Except.ok (PyFloat.fin ((30 * pid + 5 : ℕ) : ℚ))
  get_planet_name := fun n => planetNames.getD n ""
  houses_ex := fun _ _ _ _ _ =>
    Except.ok (([0, 10, 40, 70, 100, 130, 160, 190, 220, 250, 280, 310, 340] : List ℚ).map
        PyFloat.fin,
      ([10, 100] : List ℚ).map PyFloat.fin)
  houses := fun _ _ _ _ => Except.error "houses failed"

/-- A concrete provider on which exactly the Sun position fails. -/
def Pfail : Provider :=
  { P0 with
    calc_ut := fun _ pid =>
      if pid = 0 then Except.error "sun failed"
      else Except.ok (PyFloat.fin ((30 * pid + 5 : ℕ) : ℚ)) }

/-- Like `Pfail` but with a different (successful) Sun position. -/
def Pfail2 : Provider :=
  { P0 with
    calc_ut := fun _ pid =>
      if pid = 0 then Except.ok (PyFloat.fin 50)
      else Except.ok (PyFloat.fin ((30 * pid + 5 : ℕ) : ℚ)) }

/-- A concrete provider on which both house computations fail. -/
def Phfail : Provider :=
  { P0 with
    houses_ex := fun _ _ _ _ _ => Except.error "houses_ex failed",
    houses := fun _ _ _ _ => Except.error "houses failed" }

/-- Claim C3 counterexample: with all other fields identical, supplying
`tz_offset` as the string `"+05:30"` does not yield the same output as
supplying 330: the string is rejected by `float()` with a `ValueError`
(HTTP 400), so the `"+HH:MM"` offset format is not accepted. -/
theorem tz_offset_counterexample :
    parse_inputs (C3base ++ [("tz_offset", JVal.jstr "+05:30")]) =
      Except.error (PyErr.valueError "could not convert string to float: \x27+05:30\x27") ∧
    natal P0 (C3base ++ [("tz_offset", JVal.jstr "+05:30")]) ≠
      natal P0 (C3base ++ [("tz_offset", JVal.jnum 330)]) :=
  ⟨rfl, by decide⟩

/-- Claim C3 (amended): the offset parser accepts an absent value
(defaulting to 0) and a bare signed number, which is interpreted as
fractional hours (`hour_utc = hour_local - tz`, so 330 means 330 hours, not
330 minutes); a `"+HH:MM"` string is rejected with a `ValueError` (HTTP
400), so the string and minutes forms are not equivalent. -/
theorem tz_offset_amended (q : ℚ) :
    parse_inputs C3base =
      Except.ok (1995, 6, 15, PyFloat.fin ((3:ℚ) + 15/60 - 0), PyFloat.fin 19,
        PyFloat.fin 72, PyFloat.fin 0) ∧
    parse_inputs (C3base ++ [("tz_offset", JVal.jnum q)]) =
      Except.ok (1995, 6, 15, PyFloat.fin ((3:ℚ) + 15/60 - q), PyFloat.fin 19,
        PyFloat.fin 72, PyFloat.fin q) ∧
    parse_inputs (C3base ++ [("tz_offset", JVal.jstr "+05:30")]) =
      Except.error (PyErr.valueError "could not convert string to float: \x27+05:30\x27") :=
  ⟨rfl, rfl, rfl⟩

/-- Claim C4 counterexample: the `"HH:MM:SS"` time shape, which the claim
says is accepted, is rejected with the `InvalidInput` error. -/
theorem time_format_counterexample :
    parse_inputs (timePayload "03:15:30") =
      Except.error (PyErr.valueError "Invalid \x27time\x27 format. Use HH:MM (24h).") :=
  rfl

/-- Claim C4 (amended): a time string is accepted exactly when it splits on
`:` into two `int()`-parseable parts (the `"HH:MM"` shape); any other string
— including the `"HH:MM:SS"` shape — is rejected with the `InvalidInput`
error (HTTP 400). -/
theorem time_format_amended (t : String) :
    (match (pySplit t ':').mapM pyIntOfString with
     | some [hh, mm] =>
        parse_inputs (timePayload t) =
          Except.ok (1995, 6, 15, PyFloat.fin ((hh : ℚ) + (mm : ℚ) / 60),
            PyFloat.fin 19, PyFloat.fin 72, PyFloat.fin 0)
     | _ =>
        parse_inputs (timePayload t) =
          Except.error (PyErr.valueError "Invalid \x27time\x27 format. Use HH:MM (24h).")) := by
  rcases h : (pySplit t ':').mapM pyIntOfString with _ | l
  · have h2 : (pySplit (pyStr (getField (timePayload t) "time")) ':').mapM pyIntOfString =
        none := h
    simp only [parse_inputs, h2]
    rfl
  · rcases l with _ | ⟨a, _ | ⟨b, _ | ⟨c, l⟩⟩⟩
    · have h2 : (pySplit (pyStr (getField (timePayload t) "time")) ':').mapM pyIntOfString =
          some [] := h
      simp only [parse_inputs, h2]
      rfl
    · have h2 : (pySplit (pyStr (getField (timePayload t) "time")) ':').mapM pyIntOfString =
          some [a] := h
      simp only [parse_inputs, h2]
      rfl
    · have h2 : (pySplit (pyStr (getField (timePayload t) "time")) ':').mapM pyIntOfString =
          some [a, b] := h
      simp only [parse_inputs, h2]
      trans (Except.ok (1995, 6, 15,
        PyFloat.fin ((a : ℚ) + (b : ℚ) / 60 - 0), PyFloat.fin 19, PyFloat.fin 72,
        PyFloat.fin 0) : Except PyErr (ℤ × ℤ × ℤ × PyFloat × PyFloat × PyFloat × PyFloat))
      · rfl
      · norm_num
    · have h2 : (pySplit (pyStr (getField (timePayload t) "time")) ':').mapM pyIntOfString =
          some (a :: b :: c :: l) := h
      simp only [parse_inputs, h2]
      rfl

/-- Claim C5: a POST body missing one or more of the required fields `date`,
`time`, `lat`, `lon` gets an HTTP 400 whose message names every missing
field (the comma-join of the full filtered list, not just the first), and
the response is the same for every provider — so no ephemeris call is made. -/
theorem missing_fields_fail_fast (p p2 : Provider) (data : List (String × JVal))
    (h : requiredKeys.filter (fun k => (data.lookup k).isNone) ≠ []) :
    natal p data = HttpResp.badRequest
      ("Missing required field(s): " ++
        joinComma (requiredKeys.filter (fun k => (data.lookup k).isNone))) ∧
    natal p data = natal p2 data := by
  have hp : parse_inputs data = Except.error (PyErr.valueError
      ("Missing required field(s): " ++
        joinComma (requiredKeys.filter (fun k => (data.lookup k).isNone)))) := by
    simp only [parse_inputs]
    rw [if_neg h]
  exact ⟨by simp only [natal, hp], by simp only [natal, hp]⟩

/-- Witness for C5: a body with only `date` present is rejected with a
message naming `time`, `lat` and `lon`. -/
theorem missing_fields_fail_fast_witness :
    natal P0 [("date", JVal.jstr "1995-06-15")] =
      HttpResp.badRequest "Missing required field(s): time, lat, lon" :=
  (missing_fields_fail_fast P0 P0 [("date", JVal.jstr "1995-06-15")] (by decide)).1

/-- Claim C6: when the position of one body fails, the failure is recorded
inline as that body's error-marker entry; every other body's entry is
independent of that body's computation (changing it changes nothing else);
and the handler still returns the assembled HTTP 200 response, not a
top-level failure. -/
theorem per_body_failure_isolated (p p2 : Provider) (data : List (String × JVal))
    (y m d : ℤ) (hu lat lon tz jd : PyFloat) (pid : ℕ) (e : String)
    (hparse : parse_inputs data = Except.ok (y, m, d, hu, lat, lon, tz))
    (hjd : p.julday y m d hu = Except.ok jd)
    (hmem : pid ∈ planet_ids)
    (hfail : p.calc_ut jd pid = Except.error e)
    (hagree : ∀ q2, q2 ≠ pid → p2.calc_ut jd q2 = p.calc_ut jd q2) :
    computeBody p jd pid = PlanetEntry.perr e ∧
    (p.get_planet_name pid, PlanetEntry.perr e) ∈ computePlanets p jd ∧
    (∀ q2, q2 ≠ pid → computeBody p jd q2 = computeBody p2 jd q2) ∧
    natal p data = HttpResp.okResp jd tz (computePlanets p jd)
      (computeHouses p jd lat lon).1 (computeHouses p jd lat lon).2
      (lookupSign (computePlanets p jd) "Sun") (lookupSign (computePlanets p jd) "Moon")
      (ascSignOf (computeHouses p jd lat lon).2) := by
  have hbody : computeBody p jd pid = PlanetEntry.perr e := by
    simp only [computeBody, hfail]
  refine ⟨hbody, ?_, ?_, ?_⟩
  · have hm : (p.get_planet_name pid, computeBody p jd pid) ∈ computePlanets p jd :=
      List.mem_map_of_mem _ hmem
    rwa [hbody] at hm
  · intro q2 hq
    simp only [computeBody, hagree q2 hq]
  · simp only [natal, hparse, hjd]

/-- Witness for C6: on a provider whose Sun computation fails, the Sun entry
is the inline error marker. -/
theorem per_body_failure_isolated_witness :
    computeBody Pfail (PyFloat.fin 2449883) swe.SUN = PlanetEntry.perr "sun failed" :=
  (per_body_failure_isolated Pfail Pfail2 C3base 1995 6 15
    (PyFloat.fin ((3:ℚ) + 15/60 - 0)) (PyFloat.fin 19) (PyFloat.fin 72) (PyFloat.fin 0)
    (PyFloat.fin 2449883) swe.SUN "sun failed"
    rfl rfl (by decide) rfl
    (fun q2 hq => by
      have hq0 : q2 ≠ 0 := hq
      simp [Pfail, Pfail2, hq0])).1

/-- Claim C7: when house/angle computation fails (both `houses_ex` and the
`houses` fallback), it fails as a unit: `houses` becomes the `None` error
indicator and `angles` the error dictionary, while the already-computed
planetary data is still returned in the same HTTP 200 response. -/
theorem house_failure_unit (p : Provider) (data : List (String × JVal))
    (y m d : ℤ) (hu lat lon tz jd : PyFloat) (e1 e2 : String)
    (hparse : parse_inputs data = Except.ok (y, m, d, hu, lat, lon, tz))
    (hjd : p.julday y m d hu = Except.ok jd)
    (hex : p.houses_ex jd swe.FLG_SWIEPH lat lon "P" = Except.error e1)
    (hho : p.houses jd lat lon "P" = Except.error e2) :
    computeHouses p jd lat lon = (none, AnglesOut.err e2) ∧
    natal p data = HttpResp.okResp jd tz (computePlanets p jd) none (AnglesOut.err e2)
      (lookupSign (computePlanets p jd) "Sun") (lookupSign (computePlanets p jd) "Moon")
      none := by
  have hch : computeHouses p jd lat lon = (none, AnglesOut.err e2) := by
    simp only [computeHouses, computeHousesAux, hex, hho]
  refine ⟨hch, ?_⟩
  simp only [natal, hparse, hjd, hch, ascSignOf]

/-- Witness for C7: on a provider with both house calls failing, the houses
section is `None` and the angles section carries the fallback error. -/
theorem house_failure_unit_witness :
    computeHouses Phfail (PyFloat.fin 2449883) (PyFloat.fin 19) (PyFloat.fin 72) =
      (none, AnglesOut.err "houses failed") :=
  (house_failure_unit Phfail C3base 1995 6 15 (PyFloat.fin ((3:ℚ) + 15/60 - 0))
    (PyFloat.fin 19) (PyFloat.fin 72) (PyFloat.fin 0) (PyFloat.fin 2449883)
    "houses_ex failed" "houses failed" rfl rfl rfl rfl).1

/-- Claim C9 counterexample: an out-of-range latitude/longitude pair
(200, 500) and a non-finite latitude (`"nan"`) both pass validation and
reach the computation phase, contradicting the claimed range and
finiteness checks. -/
theorem latlon_bounds_counterexample :
    parse_inputs (C9base (JVal.jnum 200) (JVal.jnum 500)) =
      Except.ok (2000, 1, 1, PyFloat.fin ((12:ℚ) + 30/60 - 0), PyFloat.fin 200,
        PyFloat.fin 500, PyFloat.fin 0) ∧
    parse_inputs (C9base (JVal.jstr "nan") (JVal.jnum 0)) =
      Except.ok (2000, 1, 1, PyFloat.fin ((12:ℚ) + 30/60 - 0), PyFloat.nan,
        PyFloat.fin 0, PyFloat.fin 0) ∧
    ¬ ((200:ℚ) ≤ 90) ∧ PyFloat.nan.isFinite = false :=
  ⟨rfl, rfl, by norm_num, rfl⟩

/-- Claim C9 (amended): validation only requires `lat` and `lon` to convert
with `float()`: a request reaches the computation phase exactly when both
conversions succeed, with whatever values (possibly out of range or
non-finite) they produce; a failing conversion is rejected with the numeric
`ValueError`.  No bound or finiteness check is performed. -/
theorem latlon_validation_amended (v w : JVal) :
    (∀ lf wf : PyFloat, pyFloatJ v = Except.ok lf → pyFloatJ w = Except.ok wf →
      parse_inputs (C9base v w) =
        Except.ok (2000, 1, 1, PyFloat.fin ((12 : ℚ) + 30 / 60 - 0), lf, wf, PyFloat.fin 0)) ∧
    (∀ e, pyFloatJ v = Except.error e →
      parse_inputs (C9base v w) =
        Except.error (PyErr.valueError "\x27lat\x27 and \x27lon\x27 must be numbers.")) ∧
    (∀ lf e, pyFloatJ v = Except.ok lf → pyFloatJ w = Except.error e →
      parse_inputs (C9base v w) =
        Except.error (PyErr.valueError "\x27lat\x27 and \x27lon\x27 must be numbers.")) := by
  refine ⟨fun lf wf hv hw => ?_, fun e hv => ?_, fun lf e hv hw => ?_⟩
  · have h2 : pyFloatJ (getField (C9base v w) "lat") = Except.ok lf := hv
    have h3 : pyFloatJ (getField (C9base v w) "lon") = Except.ok wf := hw
    simp only [parse_inputs, h2, h3]
    rfl
  · have h2 : pyFloatJ (getField (C9base v w) "lat") = Except.error e := hv
    simp only [parse_inputs, h2]
    rfl
  · have h2 : pyFloatJ (getField (C9base v w) "lat") = Except.ok lf := hv
    have h3 : pyFloatJ (getField (C9base v w) "lon") = Except.error e := hw
    simp only [parse_inputs, h2, h3]
    rfl

/-- Witness for C9 (amended) at `lat = 1`, `lon = "abc"`: the non-numeric
longitude is rejected with the numeric-type error message. -/
theorem latlon_validation_amended_witness :
    parse_inputs (C9base (JVal.jnum 1) (JVal.jstr "abc")) =
      Except.error (PyErr.valueError "\x27lat\x27 and \x27lon\x27 must be numbers.") :=
  (latlon_validation_amended (JVal.jnum 1) (JVal.jstr "abc")).2.2 (PyFloat.fin 1)
    (PyErr.valueError "could not convert string to float: \x27abc\x27") rfl rfl

/-- Claim C10 counterexample: a cusp of 359.99999 degrees is normalized into
`[0, 360)` but then rounded to four decimals, producing exactly 360.0; and a
NaN cusp passes through as NaN (`nan % 360` is NaN and `round(nan, 4)` is
NaN) — so the returned values are not always in `[0, 360)`. -/
theorem normalize_cusps_counterexample :
    _normalize_cusps (some (List.replicate 12 (PyFloat.fin (35999999/100000 : ℚ)))) =
      some (List.replicate 12 (PyFloat.fin (360 : ℚ))) ∧
    _normalize_cusps (some (List.replicate 12 PyFloat.nan)) =
      some (List.replicate 12 PyFloat.nan) ∧
    ¬ ((360:ℚ) < 360) ∧ PyFloat.nan.isFinite = false := by
  refine ⟨?_, ?_, by norm_num, rfl⟩
  · have hval : pyRound4F (norm360F (PyFloat.fin (35999999/100000 : ℚ))) =
        PyFloat.fin 360 := by
      have h360 : pyRound4 (norm360 (35999999/100000 : ℚ)) = 360 := by
        norm_num [pyRound4, roundHalfEven, norm360]
      simp [pyRound4F, norm360F, h360]
    simp [_normalize_cusps, hval]
  · rfl

/-- Claim C10 (amended): `_normalize_cusps` returns `None` for a `None`,
empty, or wrongly-sized input; for an input of length 13 or more it maps
elements 1..12, and for length exactly 12 all elements, through
`round(norm360(v), 4)`; every returned list has exactly 12 values, and each
value is either finite in the closed interval `[0, 360]` (the endpoint is
attainable through rounding) or NaN — a finite input element always yields
a finite value in `[0, 360]`, while a non-finite input element (NaN or an
infinity) passes through as NaN, so `[0, 360)` does not hold. -/
theorem normalize_cusps_amended (raw : Option (List PyFloat)) :
    (raw = none → _normalize_cusps raw = none) ∧
    (∀ cs, raw = some cs → 13 ≤ cs.length →
      _normalize_cusps raw =
        some (((cs.drop 1).take 12).map (fun v => pyRound4F (norm360F v)))) ∧
    (∀ cs, raw = some cs → cs.length = 12 →
      _normalize_cusps raw = some (cs.map (fun v => pyRound4F (norm360F v)))) ∧
    (∀ cs, raw = some cs → cs.length < 13 → cs.length ≠ 12 → _normalize_cusps raw = none) ∧
    (∀ l, _normalize_cusps raw = some l → l.length = 12 ∧
      ∀ v ∈ l, (∃ u : ℚ, v = PyFloat.fin u ∧ 0 ≤ u ∧ u ≤ 360) ∨ v = PyFloat.nan) ∧
    (∀ u : ℚ, pyRound4F (norm360F (PyFloat.fin u)) = PyFloat.fin (pyRound4 (norm360 u)) ∧
      0 ≤ pyRound4 (norm360 u) ∧ pyRound4 (norm360 u) ≤ 360) ∧
    (∀ v : PyFloat, v.isFinite = false → pyRound4F (norm360F v) = PyFloat.nan) := by
  have helem : ∀ u0 : PyFloat,
      (∃ u : ℚ, pyRound4F (norm360F u0) = PyFloat.fin u ∧ 0 ≤ u ∧ u ≤ 360) ∨
      pyRound4F (norm360F u0) = PyFloat.nan := by
    intro u0
    cases u0 with
    | fin q =>
      exact Or.inl ⟨pyRound4 (norm360 q), rfl,
        pyRound4_nonneg _ (norm360_nonneg q), pyRound4_le _ (norm360_lt_360 q)⟩
    | nan => exact Or.inr rfl
    | inf => exact Or.inr rfl
    | ninf => exact Or.inr rfl
  have hfin : ∀ u : ℚ,
      pyRound4F (norm360F (PyFloat.fin u)) = PyFloat.fin (pyRound4 (norm360 u)) ∧
      0 ≤ pyRound4 (norm360 u) ∧ pyRound4 (norm360 u) ≤ 360 :=
    fun u => ⟨rfl, pyRound4_nonneg _ (norm360_nonneg u), pyRound4_le _ (norm360_lt_360 u)⟩
  have hnf : ∀ v : PyFloat, v.isFinite = false → pyRound4F (norm360F v) = PyFloat.nan := by
    intro v hv
    cases v with
    | fin q => simp [PyFloat.isFinite] at hv
    | nan => rfl
    | inf => rfl
    | ninf => rfl
  cases raw with
  | none =>
    exact ⟨fun _ => rfl, by simp, by simp, by simp, by simp [_normalize_cusps], hfin, hnf⟩
  | some cs =>
    refine ⟨by simp, ?_, ?_, ?_, ?_, hfin, hnf⟩
    · rintro cs2 h h13
      injection h with h
      subst h
      have hne : ¬ (cs = []) := by
        intro hnil
        rw [hnil] at h13
        simp at h13
      simp only [_normalize_cusps, if_neg hne, if_pos h13]
    · rintro cs2 h h12
      injection h with h
      subst h
      have hne : ¬ (cs = []) := by
        intro hnil
        rw [hnil] at h12
        simp at h12
      have h13 : ¬ (13 ≤ cs.length) := by omega
      simp only [_normalize_cusps, if_neg hne, if_neg h13, if_pos h12]
    · rintro cs2 h hlt hne12
      injection h with h
      subst h
      by_cases hne : cs = []
      · simp [_normalize_cusps, hne]
      · have h13 : ¬ (13 ≤ cs.length) := by omega
        simp [_normalize_cusps, hne, h13, hne12]
    · intro l hl
      simp only [_normalize_cusps] at hl
      split_ifs at hl with hne h13 h12
      · obtain ⟨rfl⟩ : (((cs.drop 1).take 12).map (fun v => pyRound4F (norm360F v))) = l :=
          Option.some.inj hl
        constructor
        · simp only [List.length_map, List.length_take, List.length_drop]
          omega
        · intro v hv
          obtain ⟨u0, _, rfl⟩ := List.mem_map.mp hv
          exact helem u0
      · obtain ⟨rfl⟩ : (cs.map (fun v => pyRound4F (norm360F v))) = l := Option.some.inj hl
        constructor
        · simp only [List.length_map]
          exact h12
        · intro v hv
          obtain ⟨u0, _, rfl⟩ := List.mem_map.mp hv
          exact helem u0

/-- Witness for C10 (amended) on a 13-element input: the dummy entry is
dropped and the remaining 12 values are kept. -/
theorem normalize_cusps_amended_witness :
    _normalize_cusps (some (List.replicate 13 (PyFloat.fin 0))) =
      some ((((List.replicate 13 (PyFloat.fin 0)).drop 1).take 12).map
        (fun v => pyRound4F (norm360F v))) :=
  (normalize_cusps_amended (some (List.replicate 13 (PyFloat.fin 0)))).2.1
    (List.replicate 13 (PyFloat.fin 0)) rfl (by decide)
